import Mathlib

/-!
Shallow embedding of the SECURE-ASF password manager core
(`src/scirpt3.py`, class `DynamicPasswordManager`) and proofs about it.

Modelling conventions:
* The external persistence layer (`DatabaseConnector`, spec section 6) is a
  per-user record store; we model it as a `DB` record threaded through the
  operations (state passing replaces `await self.db.*` calls).
* Argon2 (`PasswordHasher`) is modelled as an ideal credential hasher:
  `phVerify (phHash s) t` succeeds exactly when `s = t`.
* PBKDF2 (`kdfDerive`) is modelled as a collision-free deterministic map from
  `(password, salt)` to key identities.
* Fernet is modelled as ideal authenticated encryption: a token records the
  key it was encrypted under, its nonce and its plaintext, and decryption
  under any other key fails closed.
* Sources of randomness (`os.urandom`, `secrets.choice`) become explicit
  parameters (a seed, a choice stream), so that every definition is a pure
  executable function of its inputs.
* `pyotp.TOTP(secret).verify(code)` is an external primitive; operations that
  use it take it as a boolean-valued parameter `tv : String → String → Bool`.
-/

namespace SecureASF

/-- An Argon2 hash string, modelled as remembering the hashed secret. -/
structure HashV where
  val : String
deriving DecidableEq

/-- Embeds `self.ph.hash(secret)` (ideal hasher model). -/
def phHash (secret : String) : HashV := ⟨secret⟩

/-- Embeds `self.ph.verify(stored, secret)`: true on match, and the source
raises `VerifyMismatchError` exactly when this is false. -/
def phVerify (stored : HashV) (secret : String) : Bool := stored.val == secret

/-- A derived symmetric key, modelled as the `(password, salt)` pair that
PBKDF2HMAC-SHA256 would deterministically map to key bytes (collision-free
KDF model). -/
structure DerivedKey where
  pw : String
  salt : List Nat
deriving DecidableEq

/-- Embeds the PBKDF2HMAC derivation + urlsafe_b64encode used to build the
`Fernet` key in `reset_master_password` and `load_key`. -/
def kdfDerive (pw : String) (salt : List Nat) : DerivedKey := ⟨pw, salt⟩

/-- A Fernet token: self-describing authenticated ciphertext. It records the
key it was produced under, the random nonce, and the protected plaintext. -/
structure Token where
  key : DerivedKey
  nonce : Nat
  plaintext : String
deriving DecidableEq

/-- Embeds `self.fer.encrypt(pt)`; `nonce` stands for the token's fresh
randomness. -/
def fernetEncrypt (key : DerivedKey) (nonce : Nat) (pt : String) : Token :=
  ⟨key, nonce, pt⟩

/-- Embeds `self.fer.decrypt(tok)`: returns the plaintext when the token was
made under the same key, otherwise fails closed (`InvalidToken`). -/
def fernetDecrypt (key : DerivedKey) (t : Token) : Except Unit String :=
  if t.key = key then .ok t.plaintext else .error ()

/-- The per-user lockout tuple `{failed_attempts, lockout_until}` persisted by
`get_lockout_data` / `set_lockout_data`. -/
structure LockoutState where
  failedAttempts : Nat
  lockoutUntil : Nat
deriving DecidableEq

/-- Modelled from the spec: the persistence layer of section 6 (the repo's
`script3_sql.DatabaseConnector`, not under `src/`) is a keyed record store per
user; we carry the one user's rows as a record. `totpSecret = ""` means no
second factor enrolled (matching `get_totp_secret` returning `""`). -/
structure DB where
  passwordHash : Option HashV
  pinHash : Option HashV
  salt : Option (List Nat)
  totpSecret : String
  lockout : LockoutState
  sites : List (String × Token × Token)
  wallets : List (String × Token × Token × Token)
deriving DecidableEq

/-- Embeds `os.urandom(16)` as 16 bytes extracted from a seed. -/
def urandom16 (seed : Nat) : List Nat :=
  (List.range 16).map (fun i => seed / 256 ^ i % 256)

/-- Embeds Python `str.strip()`: removes leading and trailing whitespace. -/
def pyStrip (s : String) : String :=
  String.mk (((s.data.dropWhile Char.isWhitespace).reverse.dropWhile
    Char.isWhitespace).reverse)

/-- Embeds Python `str.lower()`. -/
def pyLower (s : String) : String := String.mk (s.data.map Char.toLower)

/-- Embeds `string.ascii_letters + string.digits + string.punctuation`
(character codes, in Python's concatenation order). -/
def alphabet : List Char :=
  ((List.range 26).map (fun i => Char.ofNat (97 + i))) ++
  ((List.range 26).map (fun i => Char.ofNat (65 + i))) ++
  ((List.range 10).map (fun i => Char.ofNat (48 + i))) ++
  ((List.range 15).map (fun i => Char.ofNat (33 + i))) ++
  ((List.range 7).map (fun i => Char.ofNat (58 + i))) ++
  ((List.range 6).map (fun i => Char.ofNat (91 + i))) ++
  ((List.range 4).map (fun i => Char.ofNat (123 + i)))

/-- Embeds `DynamicPasswordManager.generate_secure_password`: `len` characters
drawn from `alphabet`; `choice i` is the stream of picks that
`secrets.choice(alphabet)` makes (reduced mod the alphabet size). -/
def generate_secure_password (choice : Nat → Nat) (len : Nat) : String :=
  String.mk ((List.range len).map (fun i =>
    alphabet.get ⟨choice i % alphabet.length, Nat.mod_lt _ (by decide)⟩))

/-- Embeds `verify_recovery_pin`: reads only the stored PIN hash; state is
threaded to make the frame property statable. -/
def verify_recovery_pin (recovery_pin : String) (db : DB) : Bool × DB :=
  match db.pinHash with
  | none => (false, db)
  | some stored => (phVerify stored recovery_pin, db)

/-- Embeds `verify_2fa`: vacuously true when no secret is enrolled, otherwise
`pyotp` verification `tv` of the supplied `code` against the stored secret. -/
def verify_2fa (tv : String → String → Bool) (code : String) (db : DB) : Bool :=
  if db.totpSecret = "" then true
  else tv db.totpSecret code

/-- Embeds `inc_login_failure`: increments the counter; at the 5th and later
failures sets `lockout_until = now + 3 * 2 ^ (count - 5) minutes`. -/
def inc_login_failure (now : Nat) (db : DB) : DB :=
  let failed_attempts := db.lockout.failedAttempts + 1
  let lockout_until :=
    if 5 ≤ failed_attempts then now + 3 * 2 ^ (failed_attempts - 5) * 60
    else 0
  { db with lockout := ⟨failed_attempts, lockout_until⟩ }

/-- Result of one `verify_master_password` call: the boolean outcome, the
remaining lockout seconds it reports when short-circuiting, whether
`self.ph.verify` was ever invoked, and the store state after the call. -/
structure AuthResult where
  ok : Bool
  remaining : Option Nat
  hashCompared : Bool
  db : DB
deriving DecidableEq

/-- Embeds `verify_master_password`. A `VerifyMismatchError` from `ph.verify`
is the `else` branch that runs `inc_login_failure`; a failed second factor
returns `False` directly (no exception, hence no increment). -/
def verify_master_password (tv : String → String → Bool) (code : String)
    (now : Nat) (master_password : String) (db : DB) : AuthResult :=
  if now < db.lockout.lockoutUntil then
    ⟨false, some (db.lockout.lockoutUntil - now), false, db⟩
  else
    match db.passwordHash with
    | none => ⟨false, none, false, db⟩
    | some stored_pass =>
      if phVerify stored_pass master_password then
        if db.totpSecret ≠ "" then
          if verify_2fa tv code db then
            ⟨true, none, true, { db with lockout := ⟨0, 0⟩ }⟩
          else
            ⟨false, none, true, db⟩
        else
          ⟨true, none, true, { db with lockout := ⟨0, 0⟩ }⟩
      else
        ⟨false, none, true, inc_login_failure now db⟩

/-- Embeds `load_key`: authenticate, then derive the session key from the
stored salt; a missing salt raises `ValueError("User salt not found")`. The
first component is the store state after the call. -/
def load_key (tv : String → String → Bool) (code : String) (now : Nat)
    (master_password : String) (db : DB) : DB × Except String DerivedKey :=
  let r := verify_master_password tv code now master_password db
  if r.ok then
    match r.db.salt with
    | none => (r.db, .error "User salt not found")
    | some user_salt => (r.db, .ok (kdfDerive master_password user_salt))
  else
    (r.db, .error "Invalid master password")

/-- Embeds `reset_master_password`: rehash and persist the new password,
generate and persist a salt only when none is stored (`seed` feeds that
`os.urandom(16)` call), then re-derive the cached session key `self.fer`.
Stored secret records are not touched. -/
def reset_master_password (seed : Nat) (new_password : String) (db : DB) :
    DB × DerivedKey :=
  let db1 : DB := { db with passwordHash := some (phHash new_password) }
  match db1.salt with
  | none =>
    let user_salt := urandom16 seed
    ({ db1 with salt := some user_salt }, kdfDerive new_password user_salt)
  | some user_salt => (db1, kdfDerive new_password user_salt)

/-- Embeds `db.get_site_credentials`: first stored row for the site. -/
def get_site_credentials (site : String) (sites : List (String × Token × Token)) :
    Option (Token × Token) :=
  match sites.find? (fun r => r.1 == site) with
  | some (_, eu, ep) => some (eu, ep)
  | none => none

/-- Embeds `db.get_wallet`: first stored row for the wallet name. -/
def get_wallet_row (walletName : String)
    (wallets : List (String × Token × Token × Token)) :
    Option (Token × Token × Token) :=
  match wallets.find? (fun r => r.1 == walletName) with
  | some (_, eu, ep, er) => some (eu, ep, er)
  | none => none

/-- Embeds Python's `s or d` for strings: the placeholder `d` replaces an
empty `s`. -/
def pyOr (s d : String) : String := if s = "" then d else s

/-- Embeds `add_credentials`: `'0'` sentinels are normalized to `''`, `"gen"`
(after strip+lower) triggers password generation, then both fields are
individually encrypted under the cached session key `fer` and stored.
`nu`/`np` are the two tokens' nonces, `choice` the generator's randomness. -/
def add_credentials (choice : Nat → Nat) (nu np : Nat) (fer : DerivedKey)
    (site username password : String) (db : DB) : DB × Bool :=
  let username := if username == "0" then "" else username
  let password :=
    if pyLower (pyStrip password) == "gen" then generate_secure_password choice 25
    else password
  let password := if password == "0" then "" else password
  let encrypted_username := fernetEncrypt fer nu username
  let encrypted_password := fernetEncrypt fer np password
  ({ db with sites := (site, encrypted_username, encrypted_password) :: db.sites },
   true)

/-- Errors surfaced by `get_credentials`: the raised
`ValueError("Invalid master password")`, or the uncaught Fernet
`InvalidToken` from decryption. -/
inductive GetCredError
  | invalidMaster
  | decryptionFailure
deriving DecidableEq

/-- Decrypted site record as returned to the caller. -/
structure CredOut where
  username : String
  password : String
deriving DecidableEq

/-- Embeds `get_credentials`: authenticate, look up the site, decrypt both
fields with the cached key, replacing empty plaintexts by placeholders.
A decryption failure propagates (it is not caught). -/
def get_credentials (tv : String → String → Bool) (code : String) (now : Nat)
    (master_password : String) (fer : DerivedKey) (site : String) (db : DB) :
    DB × Except GetCredError (Option CredOut) :=
  let r := verify_master_password tv code now master_password db
  if r.ok then
    match get_site_credentials site r.db.sites with
    | none => (r.db, .ok none)
    | some (eu, ep) =>
      match fernetDecrypt fer eu, fernetDecrypt fer ep with
      | .ok u, .ok p =>
        (r.db, .ok (some ⟨pyOr u "No username", pyOr p "No password"⟩))
      | _, _ => (r.db, .error .decryptionFailure)
  else
    (r.db, .error .invalidMaster)

/-- Embeds `add_wallet`: PIN-gated; sentinels and `"gen"` handled as in
`add_credentials`; three fields individually encrypted and stored. The
`master_password` argument is accepted but unused, as in the source. -/
def add_wallet (choice : Nat → Nat) (nu np nr : Nat) (fer : DerivedKey)
    (wallet_name username password recovery_phrase master_password pin : String)
    (db : DB) : DB × Except String Unit :=
  let pinOk := (verify_recovery_pin pin db).1
  let db := (verify_recovery_pin pin db).2
  if pinOk then
    let username := if username == "0" then "" else username
    let password :=
      if pyLower (pyStrip password) == "gen" then generate_secure_password choice 25
      else password
    let password := if password == "0" then "" else password
    let recovery_phrase := if recovery_phrase == "0" then "" else recovery_phrase
    let encrypted_username := fernetEncrypt fer nu username
    let encrypted_password := fernetEncrypt fer np password
    let encrypted_recovery := fernetEncrypt fer nr recovery_phrase
    ({ db with wallets :=
        (wallet_name, encrypted_username, encrypted_password, encrypted_recovery)
        :: db.wallets },
     .ok ())
  else
    (db, .error "Invalid PIN")

/-- Decrypted wallet record as returned to the caller. -/
structure WalletOut where
  username : String
  password : String
  recovery_phrase : String
deriving DecidableEq

/-- Embeds `get_wallet`: PIN-gated; decrypts the three fields with the cached
key, replacing empty plaintexts by placeholders; a decryption error is caught
and the function falls through to returning `None`. The `master_password`
argument is accepted but unused, as in the source. -/
def get_wallet (fer : DerivedKey) (wallet_name master_password pin : String)
    (db : DB) : DB × Except String (Option WalletOut) :=
  let pinOk := (verify_recovery_pin pin db).1
  let db := (verify_recovery_pin pin db).2
  if pinOk then
    match get_wallet_row wallet_name db.wallets with
    | none => (db, .ok none)
    | some (eu, ep, er) =>
      match fernetDecrypt fer eu, fernetDecrypt fer ep, fernetDecrypt fer er with
      | .ok u, .ok p, .ok r =>
        (db, .ok (some ⟨pyOr u "No username", pyOr p "No password",
                        pyOr r "No recovery phrase"⟩))
      | _, _, _ => (db, .ok none)
  else
    (db, .error "Invalid PIN")

/-! Concrete stores used to instantiate the theorems below. -/

/-- A user locked out until time 100, with 5 recorded failures. -/
def dbLocked : DB :=
  ⟨some (phHash "hunter2"), none, none, "", ⟨5, 100⟩, [], []⟩

/-- A user with 4 recorded failures, not currently locked. -/
def dbFour : DB :=
  ⟨some (phHash "hunter2"), none, none, "", ⟨4, 0⟩, [], []⟩

/-- A user with 2FA enrolled and 2 recorded failures. -/
def dbTotp : DB :=
  ⟨some (phHash "hunter2"), none, none, "JBSWY3DP", ⟨2, 0⟩, [], []⟩

/-- A legacy user with no stored salt. -/
def dbNoSalt : DB :=
  ⟨some (phHash "hunter2"), none, none, "", ⟨0, 0⟩, [], []⟩

/-- A salt for the concrete stores. -/
def salt0 : List Nat := urandom16 1

/-- The session key the credentials of `dbVault` were stored under. -/
def oldKey : DerivedKey := kdfDerive "hunter2" salt0

/-- A user with a stored salt, a recovery PIN, and one site credential
encrypted under `oldKey`. -/
def dbVault : DB :=
  ⟨some (phHash "hunter2"), some (phHash "123456"), some salt0, "", ⟨0, 0⟩,
   [("example.com", fernetEncrypt oldKey 11 "alice", fernetEncrypt oldKey 12 "s3cret")],
   []⟩

/-- A user whose stored site and wallet fields all decrypt to the empty
string under `oldKey`. -/
def dbEmptyFields : DB :=
  ⟨some (phHash "hunter2"), some (phHash "123456"), some salt0, "", ⟨0, 0⟩,
   [("example.com", fernetEncrypt oldKey 21 "", fernetEncrypt oldKey 22 "")],
   [("mywallet", fernetEncrypt oldKey 23 "", fernetEncrypt oldKey 24 "",
     fernetEncrypt oldKey 25 "")]⟩

/-! Helper lemmas shared by the claim theorems. -/

/-- The alphabet is the 94 printable ASCII characters, without repetition. -/
theorem alphabet_nodup : alphabet.Nodup := by decide

/-- A generated password always has the requested length. -/
theorem gen_length (choice : Nat → Nat) (len : Nat) :
    (generate_secure_password choice len).length = len := by
  simp [generate_secure_password, String.length]

/-- `verify_recovery_pin` never changes the store. -/
theorem verify_recovery_pin_snd (pin : String) (db : DB) :
    (verify_recovery_pin pin db).2 = db := by
  unfold verify_recovery_pin
  cases db.pinHash <;> rfl

/-- A fully successful `verify_master_password` run: correct password, not
locked, no second factor enrolled. -/
theorem vmp_success (tv : String → String → Bool) (code : String) (now : Nat)
    (mp : String) (db : DB) (stored : HashV)
    (hlock : ¬ now < db.lockout.lockoutUntil)
    (hph : db.passwordHash = some stored)
    (hv : phVerify stored mp = true)
    (ht : db.totpSecret = "") :
    verify_master_password tv code now mp db =
      ⟨true, none, true, { db with lockout := ⟨0, 0⟩ }⟩ := by
  unfold verify_master_password
  rw [if_neg hlock, hph]
  simp [hv, ht]

/-- A run where the password verifies but the enrolled second factor fails:
denial, and the store is left exactly as it was. -/
theorem vmp_2fa_fail (tv : String → String → Bool) (code : String) (now : Nat)
    (mp : String) (db : DB) (stored : HashV)
    (hph : db.passwordHash = some stored)
    (hv : phVerify stored mp = true)
    (ht : db.totpSecret ≠ "")
    (h2 : verify_2fa tv code db = false) :
    (verify_master_password tv code now mp db).ok = false ∧
    (verify_master_password tv code now mp db).db = db := by
  unfold verify_master_password
  by_cases hl : now < db.lockout.lockoutUntil
  · rw [if_pos hl]; exact ⟨rfl, rfl⟩
  · rw [if_neg hl, hph]
    simp [hv, ht, h2]

/-- `verify_master_password` never touches the stored salt. -/
theorem vmp_salt (tv : String → String → Bool) (code : String) (now : Nat)
    (mp : String) (db : DB) :
    (verify_master_password tv code now mp db).db.salt = db.salt := by
  unfold verify_master_password
  by_cases hl : now < db.lockout.lockoutUntil
  · rw [if_pos hl]
  · rw [if_neg hl]
    cases db.passwordHash with
    | none => rfl
    | some stored =>
      by_cases hv : phVerify stored mp <;>
        by_cases ht : db.totpSecret ≠ "" <;>
          by_cases h2 : verify_2fa tv code db <;>
            simp [hv, ht, h2, inc_login_failure]

/-! C1 -/

/-- C1: while `now < lockoutUntil`, an authentication attempt is denied
immediately — the remaining lockout seconds are reported, no password-hash
comparison is performed, and the store is untouched — for every supplied
password, including the correct one. -/
theorem C1_locked_short_circuit (tv : String → String → Bool) (code : String)
    (now : Nat) (master_password : String) (db : DB)
    (h : now < db.lockout.lockoutUntil) :
    verify_master_password tv code now master_password db =
      ⟨false, some (db.lockout.lockoutUntil - now), false, db⟩ := by
  unfold verify_master_password
  rw [if_pos h]

/-- C1 witness: at time 50 a user locked until 100 is denied with 50 seconds
remaining even though the supplied password is the correct one. -/
theorem C1_locked_short_circuit_witness :
    (50 < dbLocked.lockout.lockoutUntil ∧
      phVerify (phHash "hunter2") "hunter2" = true) ∧
    verify_master_password (fun _ _ => true) "123456" 50 "hunter2" dbLocked =
      ⟨false, some 50, false, dbLocked⟩ := by
  refine ⟨by decide, ?_⟩
  exact C1_locked_short_circuit (fun _ _ => true) "123456" 50 "hunter2" dbLocked
    (by decide)

/-! C2 -/

/-- C2: `inc_login_failure` increments the counter by one; when the new count
reaches 5 or more, `lockoutUntil` becomes `now + 3 * 2 ^ (count - 5)` minutes
(in seconds: `* 60`), and below 5 it is set to 0. -/
theorem C2_lockout_escalation (now : Nat) (db : DB) :
    (inc_login_failure now db).lockout.failedAttempts
        = db.lockout.failedAttempts + 1 ∧
    (5 ≤ db.lockout.failedAttempts + 1 →
      (inc_login_failure now db).lockout.lockoutUntil
        = now + 3 * 2 ^ (db.lockout.failedAttempts + 1 - 5) * 60) ∧
    (db.lockout.failedAttempts + 1 < 5 →
      (inc_login_failure now db).lockout.lockoutUntil = 0) := by
  refine ⟨rfl, fun h => ?_, fun h => ?_⟩
  · simp [inc_login_failure, h]
  · simp only [inc_login_failure]
    rw [if_neg (by omega)]

/-- C2 witness: the 5th failure at time 1000 locks until 1180 (3 minutes). -/
theorem C2_lockout_escalation_witness :
    (inc_login_failure 1000 dbFour).lockout.failedAttempts = 5 ∧
    (inc_login_failure 1000 dbFour).lockout.lockoutUntil = 1180 := by
  have h := C2_lockout_escalation 1000 dbFour
  exact ⟨h.1, h.2.1 (by decide)⟩

/-! C3 -/

/-- C3: the lockout state is reset to `{0, 0}` exactly on full success: a
returned `True` implies the reset happened, and an attempt whose password
matches but whose enrolled second factor fails returns denial with the store
(and so the lockout state) unchanged. -/
theorem C3_reset_only_on_full_success (tv : String → String → Bool)
    (code : String) (now : Nat) (master_password : String) (db : DB) :
    ((verify_master_password tv code now master_password db).ok = true →
      (verify_master_password tv code now master_password db).db.lockout
        = ⟨0, 0⟩) ∧
    (∀ stored, db.passwordHash = some stored →
      phVerify stored master_password = true →
      db.totpSecret ≠ "" →
      verify_2fa tv code db = false →
      (verify_master_password tv code now master_password db).ok = false ∧
      (verify_master_password tv code now master_password db).db.lockout
        = db.lockout) := by
  constructor
  · unfold verify_master_password
    by_cases hl : now < db.lockout.lockoutUntil
    · rw [if_pos hl]; intro h; simp at h
    · rw [if_neg hl]
      cases db.passwordHash with
      | none => intro h; simp at h
      | some stored =>
        by_cases hv : phVerify stored master_password <;>
          by_cases ht : db.totpSecret ≠ "" <;>
            by_cases h2 : verify_2fa tv code db <;>
              simp [hv, ht, h2]
  · intro stored hph hv ht h2
    have h := vmp_2fa_fail tv code now master_password db stored hph hv ht h2
    exact ⟨h.1, by rw [h.2]⟩

/-- C3 witness: with 2FA enrolled, the correct password plus a failing code
leaves the counter at 2, while the correct password plus a passing code
resets the lockout state to zero. -/
theorem C3_reset_only_on_full_success_witness :
    ((verify_master_password (fun _ _ => true) "c" 1000 "hunter2" dbTotp).ok
        = true →
      (verify_master_password (fun _ _ => true) "c" 1000 "hunter2" dbTotp).db.lockout
        = ⟨0, 0⟩) ∧
    ((verify_master_password (fun _ _ => false) "c" 1000 "hunter2" dbTotp).ok
        = false ∧
     (verify_master_password (fun _ _ => false) "c" 1000 "hunter2" dbTotp).db.lockout
        = dbTotp.lockout) := by
  constructor
  · exact (C3_reset_only_on_full_success (fun _ _ => true) "c" 1000 "hunter2"
      dbTotp).1
  · exact (C3_reset_only_on_full_success (fun _ _ => false) "c" 1000 "hunter2"
      dbTotp).2 (phHash "hunter2") rfl (by decide) (by decide) (by decide)

/-! C4 -/

/-- C4 counterexample: user with 2FA enrolled and 2 recorded failures. A
correct password with an invalid TOTP code is denied but leaves
`failedAttempts` at 2, while a wrong password takes it to 3 — so a failed
second factor does not increment the persisted counter the way a failed
password verification does. -/
theorem C4_counterexample :
    dbTotp.lockout.failedAttempts = 2 ∧
    (verify_master_password (fun _ _ => false) "000000" 1000 "hunter2" dbTotp).ok
      = false ∧
    (verify_master_password (fun _ _ => false) "000000" 1000 "hunter2"
      dbTotp).db.lockout.failedAttempts = 2 ∧
    (verify_master_password (fun _ _ => false) "000000" 1000 "wrong"
      dbTotp).db.lockout.failedAttempts = 3 := by
  decide

/-- C4 (amended): with a second factor enrolled, an attempt whose password
verifies but whose TOTP code is invalid is denied WITHOUT touching the store:
`failedAttempts` is not incremented (only a password mismatch, the
`VerifyMismatchError` channel, increments it). -/
theorem C4_totp_failure_no_increment (tv : String → String → Bool)
    (code : String) (now : Nat) (mp mp2 : String) (db : DB) (stored : HashV)
    (hph : db.passwordHash = some stored)
    (hv : phVerify stored mp = true)
    (ht : db.totpSecret ≠ "")
    (h2 : tv db.totpSecret code = false)
    (hl : ¬ now < db.lockout.lockoutUntil)
    (hw : phVerify stored mp2 = false) :
    (verify_master_password tv code now mp db).ok = false ∧
    (verify_master_password tv code now mp db).db = db ∧
    (verify_master_password tv code now mp2 db).db.lockout.failedAttempts
      = db.lockout.failedAttempts + 1 := by
  have h2' : verify_2fa tv code db = false := by
    simp [verify_2fa, ht, h2]
  obtain ⟨ho, hd⟩ := vmp_2fa_fail tv code now mp db stored hph hv ht h2'
  refine ⟨ho, hd, ?_⟩
  unfold verify_master_password
  rw [if_neg hl, hph]
  simp [hw, inc_login_failure]

/-- C4 witness: the amended behavior at the concrete store `dbTotp`. -/
theorem C4_totp_failure_no_increment_witness :
    (verify_master_password (fun _ _ => false) "000000" 1000 "hunter2" dbTotp).ok
      = false ∧
    (verify_master_password (fun _ _ => false) "000000" 1000 "hunter2" dbTotp).db
      = dbTotp ∧
    (verify_master_password (fun _ _ => false) "000000" 1000 "wrong"
      dbTotp).db.lockout.failedAttempts = dbTotp.lockout.failedAttempts + 1 := by
  exact C4_totp_failure_no_increment (fun _ _ => false) "000000" 1000 "hunter2"
    "wrong" dbTotp (phHash "hunter2") rfl (by decide) (by decide) rfl
    (by decide) (by decide)

/-! C5 -/

/-- C5 counterexample: `load_key` derives the session key but does not
self-heal a missing salt — for a user with no stored salt it fails with
`User salt not found` and persists no salt. -/
theorem C5_counterexample :
    dbNoSalt.salt = none ∧
    (load_key (fun _ _ => true) "" 0 "hunter2" dbNoSalt).2
      = .error "User salt not found" ∧
    (load_key (fun _ _ => true) "" 0 "hunter2" dbNoSalt).1.salt = none :=
  ⟨rfl, rfl, rfl⟩

/-- C5 (amended): only `reset_master_password` self-heals a missing salt — it
generates and persists a fresh 16-byte salt before deriving; `load_key` fails
on a missing salt and never produces a key; and once a salt is stored neither
operation regenerates or replaces it. -/
theorem C5_salt_selfheal_reset_only (seed now : Nat)
    (tv : String → String → Bool) (code mp new_password : String) (db : DB) :
    (urandom16 seed).length = 16 ∧
    (db.salt = none →
      (reset_master_password seed new_password db).1.salt
          = some (urandom16 seed) ∧
      (reset_master_password seed new_password db).2
          = kdfDerive new_password (urandom16 seed)) ∧
    (∀ s, db.salt = some s →
      (reset_master_password seed new_password db).1.salt = some s ∧
      (reset_master_password seed new_password db).2
          = kdfDerive new_password s) ∧
    (load_key tv code now mp db).1.salt = db.salt ∧
    (db.salt = none → ∀ k, (load_key tv code now mp db).2 ≠ .ok k) := by
  have hs := vmp_salt tv code now mp db
  refine ⟨by simp [urandom16], fun h => ?_, fun s h => ?_, ?_, fun h k => ?_⟩
  · simp [reset_master_password, h]
  · simp [reset_master_password, h]
  · simp only [load_key]
    split
    · split <;> exact hs
    · exact hs
  · have hn : (verify_master_password tv code now mp db).db.salt = none :=
      hs.trans h
    simp only [load_key]
    split
    · split
      · intro hcon; exact Except.noConfusion hcon
      · next u heq => rw [hn] at heq; exact Option.noConfusion heq
    · intro hcon; exact Except.noConfusion hcon

/-- C5 witness: the amended behavior at the concrete stores `dbNoSalt`
(missing salt) and `dbVault` (salt present). -/
theorem C5_salt_selfheal_reset_only_witness :
    (urandom16 7).length = 16 ∧
    (reset_master_password 7 "newpass" dbNoSalt).1.salt = some (urandom16 7) ∧
    (reset_master_password 7 "newpass" dbVault).1.salt = some salt0 ∧
    (load_key (fun _ _ => true) "" 0 "hunter2" dbNoSalt).1.salt
      = dbNoSalt.salt ∧
    (∀ k, (load_key (fun _ _ => true) "" 0 "hunter2" dbNoSalt).2 ≠ .ok k) := by
  have h1 := C5_salt_selfheal_reset_only 7 0 (fun _ _ => true) "" "hunter2"
    "newpass" dbNoSalt
  have h2 := C5_salt_selfheal_reset_only 7 0 (fun _ _ => true) "" "hunter2"
    "newpass" dbVault
  exact ⟨h1.1, (h1.2.1 rfl).1, (h2.2.2.1 salt0 rfl).1, h1.2.2.2.1,
    h1.2.2.2.2 rfl⟩

/-! C6 -/

/-- C6: `reset_master_password` rehashes and persists the new password and
re-derives the cached session key from the stored salt, but re-encrypts no
stored site record; a credential whose token was made under a different key
then fails retrieval with a decryption error instead of yielding the old
plaintext. -/
theorem C6_reset_orphans_ciphertext (seed now : Nat)
    (tv : String → String → Bool) (code new_password site : String) (db : DB)
    (s : List Nat) (tu tp : Token)
    (hsalt : db.salt = some s)
    (hlock : ¬ now < db.lockout.lockoutUntil)
    (htotp : db.totpSecret = "")
    (hfound : get_site_credentials site db.sites = some (tu, tp))
    (hkey : tu.key ≠ kdfDerive new_password s) :
    (reset_master_password seed new_password db).1.passwordHash
      = some (phHash new_password) ∧
    (reset_master_password seed new_password db).2
      = kdfDerive new_password s ∧
    (reset_master_password seed new_password db).1.sites = db.sites ∧
    (get_credentials tv code now new_password
        (reset_master_password seed new_password db).2 site
        (reset_master_password seed new_password db).1).2
      = .error .decryptionFailure := by
  have hr : reset_master_password seed new_password db
      = ({ db with passwordHash := some (phHash new_password) },
         kdfDerive new_password s) := by
    simp only [reset_master_password, hsalt]
  rw [hr]
  refine ⟨rfl, rfl, rfl, ?_⟩
  have hv : verify_master_password tv code now new_password
      { db with passwordHash := some (phHash new_password) }
      = ⟨true, none, true,
         { db with passwordHash := some (phHash new_password),
                   lockout := ⟨0, 0⟩ }⟩ :=
    vmp_success tv code now new_password _ (phHash new_password) hlock rfl
      (by simp [phVerify, phHash]) htotp
  simp [get_credentials, hv, hfound, fernetDecrypt, hkey]

/-- C6 witness: resetting the master password of `dbVault` from `hunter2` to
`newpass` keeps the old token, and retrieval then fails with a decryption
error. -/
theorem C6_reset_orphans_ciphertext_witness :
    (reset_master_password 7 "newpass" dbVault).1.passwordHash
      = some (phHash "newpass") ∧
    (reset_master_password 7 "newpass" dbVault).2
      = kdfDerive "newpass" salt0 ∧
    (reset_master_password 7 "newpass" dbVault).1.sites = dbVault.sites ∧
    (get_credentials (fun _ _ => true) "c" 0 "newpass"
        (reset_master_password 7 "newpass" dbVault).2 "example.com"
        (reset_master_password 7 "newpass" dbVault).1).2
      = .error .decryptionFailure := by
  exact C6_reset_orphans_ciphertext 7 0 (fun _ _ => true) "c" "newpass"
    "example.com" dbVault salt0 (fernetEncrypt oldKey 11 "alice")
    (fernetEncrypt oldKey 12 "s3cret") rfl (by decide) rfl rfl (by decide)

/-! C7 -/

/-- C7: `verify_recovery_pin` leaves the store unchanged, its outcome ignores
the lockout state entirely, and it returns true exactly when a PIN hash is
stored and the supplied PIN verifies against it. -/
theorem C7_pin_skips_lockout (pin : String) (db : DB) :
    (verify_recovery_pin pin db).2 = db ∧
    (∀ l : LockoutState,
      (verify_recovery_pin pin { db with lockout := l }).1
        = (verify_recovery_pin pin db).1) ∧
    ((verify_recovery_pin pin db).1 = true ↔
      ∃ h, db.pinHash = some h ∧ phVerify h pin = true) := by
  obtain ⟨ph, pinh, sa, ts, lo, si, wa⟩ := db
  cases pinh with
  | none => simp [verify_recovery_pin]
  | some stored => simp [verify_recovery_pin]

/-- C7 witness: the PIN channel at the concrete store `dbVault`, whose
recovery PIN is `123456`, with the store unchanged whatever the lockout
state. -/
theorem C7_pin_skips_lockout_witness :
    (verify_recovery_pin "123456" dbVault).2 = dbVault ∧
    (∀ l : LockoutState,
      (verify_recovery_pin "123456" { dbVault with lockout := l }).1
        = (verify_recovery_pin "123456" dbVault).1) ∧
    ((verify_recovery_pin "123456" dbVault).1 = true ↔
      ∃ h, dbVault.pinHash = some h ∧ phVerify h "123456" = true) := by
  exact C7_pin_skips_lockout "123456" dbVault

/-! C8 -/

/-- C8: a field supplied as the sentinel `"0"` — username or password in
`add_credentials`; username, password or recovery phrase in `add_wallet` — is
normalized to the empty string before encryption: the freshly stored token
protects `""`, not the literal `"0"`. -/
theorem C8_zero_sentinel (choice : Nat → Nat) (nu np nr : Nat)
    (fer : DerivedKey) (site wallet_name u p r mp pin : String) (db : DB)
    (hpin : (verify_recovery_pin pin db).1 = true) :
    ((add_credentials choice nu np fer site "0" p db).1.sites.head?.map
        (fun row => row.2.1) = some (fernetEncrypt fer nu "")) ∧
    ((add_credentials choice nu np fer site u "0" db).1.sites.head?.map
        (fun row => row.2.2) = some (fernetEncrypt fer np "")) ∧
    ((add_wallet choice nu np nr fer wallet_name "0" p r mp pin
        db).1.wallets.head?.map (fun row => row.2.1)
      = some (fernetEncrypt fer nu "")) ∧
    ((add_wallet choice nu np nr fer wallet_name u "0" r mp pin
        db).1.wallets.head?.map (fun row => row.2.2.1)
      = some (fernetEncrypt fer np "")) ∧
    ((add_wallet choice nu np nr fer wallet_name u p "0" mp pin
        db).1.wallets.head?.map (fun row => row.2.2.2)
      = some (fernetEncrypt fer nr "")) := by
  have h0 : (pyLower (pyStrip "0") == "gen") = false := by decide
  have hdb := verify_recovery_pin_snd pin db
  refine ⟨?_, ?_, ?_, ?_, ?_⟩ <;>
    simp [add_credentials, add_wallet, h0, hpin, hdb]

/-- C8 witness: storing `"0"`-valued fields on `dbVault` yields tokens whose
plaintext is the empty string. -/
theorem C8_zero_sentinel_witness :
    ((add_credentials (fun i => i) 1 2 oldKey "example.com" "0" "0"
        dbVault).1.sites.head?.map (fun row => row.2.1)
      = some (fernetEncrypt oldKey 1 "")) ∧
    ((add_wallet (fun i => i) 1 2 3 oldKey "mywallet" "0" "0" "0" "mp"
        "123456" dbVault).1.wallets.head?.map (fun row => row.2.2.2)
      = some (fernetEncrypt oldKey 3 "")) := by
  have h := C8_zero_sentinel (fun i => i) 1 2 3 oldKey "example.com"
    "mywallet" "0" "0" "0" "mp" "123456" dbVault (by decide)
  exact ⟨h.1, h.2.2.2.2⟩

/-! C9 -/

/-- C9: a password supplied as `"gen"` (after strip + lowercase) is replaced
by a generated password before encryption, in `add_credentials` and in
`add_wallet`; the generated password has exactly 25 characters, all drawn
from letters + digits + punctuation, and two generations whose randomness
differs at some position differ as strings. -/
theorem C9_gen_password (choice choice2 : Nat → Nat) (nu np nr : Nat)
    (fer : DerivedKey) (site wallet_name u r mp pin p : String) (db : DB)
    (hgen : pyLower (pyStrip p) = "gen")
    (hpin : (verify_recovery_pin pin db).1 = true) :
    ((add_credentials choice nu np fer site u p db).1.sites.head?.map
        (fun row => row.2.2)
      = some (fernetEncrypt fer np (generate_secure_password choice 25))) ∧
    ((add_wallet choice nu np nr fer wallet_name u p r mp pin
        db).1.wallets.head?.map (fun row => row.2.2.1)
      = some (fernetEncrypt fer np (generate_secure_password choice 25))) ∧
    (generate_secure_password choice 25).length = 25 ∧
    (∀ c ∈ (generate_secure_password choice 25).data, c ∈ alphabet) ∧
    (∀ i, i < 25 → choice i % alphabet.length ≠ choice2 i % alphabet.length →
      generate_secure_password choice 25
        ≠ generate_secure_password choice2 25) := by
  have hg : (pyLower (pyStrip p) == "gen") = true := beq_iff_eq.mpr hgen
  have hne0 : generate_secure_password choice 25 ≠ "0" := by
    intro h
    have h25 := gen_length choice 25
    rw [h] at h25
    exact absurd h25 (by decide)
  have hne0b : (generate_secure_password choice 25 == "0") = false :=
    beq_eq_false_iff_ne.mpr hne0
  have hdb := verify_recovery_pin_snd pin db
  refine ⟨?_, ?_, gen_length choice 25, ?_, ?_⟩
  · simp [add_credentials, hg, hne0b]
  · simp [add_wallet, hg, hne0b, hpin, hdb]
  · intro c hc
    have hc' : c ∈ (List.range 25).map (fun i =>
        alphabet.get ⟨choice i % alphabet.length, Nat.mod_lt _ (by decide)⟩) :=
      hc
    obtain ⟨i, _, rfl⟩ := List.mem_map.mp hc'
    exact List.get_mem _ _ _
  · intro i hi hne heq
    have hdata : (List.range 25).map (fun j =>
          alphabet.get ⟨choice j % alphabet.length, Nat.mod_lt _ (by decide)⟩)
        = (List.range 25).map (fun j =>
          alphabet.get ⟨choice2 j % alphabet.length,
            Nat.mod_lt _ (by decide)⟩) :=
      congrArg String.data heq
    have hsome : ((List.range 25).map (fun j =>
          alphabet.get ⟨choice j % alphabet.length, Nat.mod_lt _ (by decide)⟩))[i]?
        = ((List.range 25).map (fun j =>
          alphabet.get ⟨choice2 j % alphabet.length,
            Nat.mod_lt _ (by decide)⟩))[i]? :=
      congrArg (fun l => l[i]?) hdata
    rw [List.getElem?_map, List.getElem?_map, List.getElem?_range hi] at hsome
    simp only [Option.map_some'] at hsome
    have hget := Option.some.inj hsome
    have hfin := List.nodup_iff_injective_get.mp alphabet_nodup hget
    exact hne (congrArg Fin.val hfin)

/-- C9 witness: storing password `"gen"` on `dbVault` stores a generated
25-character password, and two different randomness streams generate
different passwords. -/
theorem C9_gen_password_witness :
    ((add_credentials (fun i => i) 1 2 oldKey "example.com" "alice" "gen"
        dbVault).1.sites.head?.map (fun row => row.2.2)
      = some (fernetEncrypt oldKey 2 (generate_secure_password
          (fun i => i) 25))) ∧
    (generate_secure_password (fun i => i) 25).length = 25 ∧
    generate_secure_password (fun i => i) 25
      ≠ generate_secure_password (fun i => i + 1) 25 := by
  have h := C9_gen_password (fun i => i) (fun i => i + 1) 1 2 3 oldKey
    "example.com" "mywallet" "alice" "r" "mp" "123456" "gen" dbVault
    (by decide) (by decide)
  exact ⟨h.1, h.2.2.1, h.2.2.2.2 0 (by decide) (by decide)⟩

/-! C10 -/

/-- C10: a stored credential or wallet whose fields decrypt to the empty
string round-trips to the placeholders `No username` / `No password` /
`No recovery phrase`, not to the empty string. -/
theorem C10_empty_fields_placeholders (tv : String → String → Bool)
    (code : String) (now : Nat) (mp wallet_name site pin mp2 : String)
    (fer : DerivedKey) (db : DB) (stored : HashV) (tu tp twu twp twr : Token)
    (hlock : ¬ now < db.lockout.lockoutUntil)
    (hph : db.passwordHash = some stored)
    (hv : phVerify stored mp = true)
    (ht : db.totpSecret = "")
    (hsite : get_site_credentials site db.sites = some (tu, tp))
    (hku : tu.key = fer) (hpu : tu.plaintext = "")
    (hkp : tp.key = fer) (hpp : tp.plaintext = "")
    (hpin : (verify_recovery_pin pin db).1 = true)
    (hwal : get_wallet_row wallet_name db.wallets = some (twu, twp, twr))
    (hkwu : twu.key = fer) (hpwu : twu.plaintext = "")
    (hkwp : twp.key = fer) (hpwp : twp.plaintext = "")
    (hkwr : twr.key = fer) (hpwr : twr.plaintext = "") :
    (get_credentials tv code now mp fer site db).2
      = .ok (some ⟨"No username", "No password"⟩) ∧
    (get_wallet fer wallet_name mp2 pin db).2
      = .ok (some ⟨"No username", "No password", "No recovery phrase"⟩) := by
  have hvm := vmp_success tv code now mp db stored hlock hph hv ht
  have hdb := verify_recovery_pin_snd pin db
  constructor
  · simp [get_credentials, hvm, hsite, fernetDecrypt, hku, hpu, hkp, hpp,
      pyOr]
  · simp [get_wallet, hpin, hdb, hwal, fernetDecrypt, hkwu, hpwu, hkwp, hpwp,
      hkwr, hpwr, pyOr]

/-- C10 witness: on `dbEmptyFields`, whose stored site and wallet fields all
decrypt to the empty string, retrieval returns the placeholder strings. -/
theorem C10_empty_fields_placeholders_witness :
    (get_credentials (fun _ _ => true) "c" 0 "hunter2" oldKey "example.com"
        dbEmptyFields).2 = .ok (some ⟨"No username", "No password"⟩) ∧
    (get_wallet oldKey "mywallet" "mp" "123456" dbEmptyFields).2
      = .ok (some ⟨"No username", "No password", "No recovery phrase"⟩) := by
  exact C10_empty_fields_placeholders (fun _ _ => true) "c" 0 "hunter2"
    "mywallet" "example.com" "123456" "mp" oldKey dbEmptyFields
    (phHash "hunter2") (fernetEncrypt oldKey 21 "") (fernetEncrypt oldKey 22 "")
    (fernetEncrypt oldKey 23 "") (fernetEncrypt oldKey 24 "")
    (fernetEncrypt oldKey 25 "") (by decide) rfl (by decide) rfl rfl rfl rfl
    rfl rfl (by decide) rfl rfl rfl rfl rfl rfl rfl

end SecureASF
